import Mathlib

/-!
Verification of the classroom-management API backend (`server.js` and
`middleware/authMiddleware.js`) against its natural-language specification.

The relational store is embedded as lists of rows (one list per SQL table,
with the same table and column names as the source), and every route handler
is embedded as a pure function from the store and the decoded token claims to
an HTTP status code plus the updated store.  The `auth` / `authorizeRole`
middleware chain of each route is folded into the head of the corresponding
handler definition, in the order the middlewares are registered on the route.
MySQL auto-increment ids are modelled by a `nextId` counter on the store and
`CURRENT_TIMESTAMP` by a `now` field.
-/

namespace Backend

/-- Decoded JWT payload attached to `req.user` by the `auth` middleware:
`{ id, email, role }`. -/
structure TokenClaims where
  id : Nat
  email : String
  role : String
deriving Repr, DecidableEq

/-- A row of the `Users` table. -/
structure User where
  id : Nat
  nom : String
  prenom : String
  email : String
  motDePasse : String
  role : String
deriving Repr, DecidableEq

/-- A row of the `Classes` table. -/
structure Classe where
  id : Nat
  nom : String
  description : String
  code : String
  professeur_id : Nat
deriving Repr, DecidableEq

/-- A row of the `UserClasses` enrollment table. -/
structure UserClass where
  id : Nat
  user_id : Nat
  class_id : Nat
  role_dans_classe : String
deriving Repr, DecidableEq

/-- A row of the `ClassMembers` table (the second, distinct membership table
used by the message, project and group routes). -/
structure ClassMember where
  class_id : Nat
  user_id : Nat
deriving Repr, DecidableEq

/-- A row of the `Announcements` table. -/
structure Announcement where
  id : Nat
  class_id : Nat
  professeur_id : Nat
  titre : String
  contenu : String
deriving Repr, DecidableEq

/-- A row of the `Tasks` table. -/
structure Task where
  id : Nat
  class_id : Nat
  professeur_id : Nat
  titre : String
  description : Option String
  date_limite : String
deriving Repr, DecidableEq

/-- A row of the `Submissions` table. -/
structure Submission where
  id : Nat
  task_id : Nat
  student_id : Nat
  file_path : Option String
  content : Option String
  submitted_at : Nat
  grade : Option Int
  correction_feedback : Option String
deriving Repr, DecidableEq

/-- A row of the `Messages` table. -/
structure Message where
  id : Nat
  sender_id : Nat
  receiver_id : Option Nat
  class_id : Option Nat
  content : String
  message_type : String
deriving Repr, DecidableEq

/-- A row of the `Projets` table. -/
structure Projet where
  id : Nat
  class_id : Nat
  titre : Option String
  description : Option String
  date_debut : Option String
  date_fin : Option String
deriving Repr, DecidableEq

/-- A row of the `Groupes` table. -/
structure Groupe where
  id : Nat
  projet_id : Nat
  nom_groupe : Option String
  description : Option String
deriving Repr, DecidableEq

/-- A row of the `MembresGroupe` table. -/
structure MembreGroupe where
  group_id : Nat
  user_id : Nat
deriving Repr, DecidableEq

/-- The relational store: one list of rows per table, plus the auto-increment
counter `nextId` and the clock `now` standing for `CURRENT_TIMESTAMP`. -/
structure Store where
  users : List User
  classes : List Classe
  userClasses : List UserClass
  classMembers : List ClassMember
  announcements : List Announcement
  tasks : List Task
  submissions : List Submission
  messages : List Message
  projets : List Projet
  groupes : List Groupe
  membresGroupe : List MembreGroupe
  nextId : Nat
  now : Nat
deriving Repr, DecidableEq

/-- Truthiness of an optional string request field, as JavaScript tests it
with `!field` : absent and empty both count as missing. -/
def strPresent : Option String → Bool
  | none => false
  | some s => !(s == "")

/-- The `auth` middleware (`middleware/authMiddleware.js`): with no
`x-auth-token` header it answers 401; with a token that fails `jwt.verify`
(malformed, expired or badly signed, abstracted as `verify` returning `none`)
it answers 401; otherwise it attaches the decoded claims. -/
def authMW (verify : String → Option TokenClaims) (token : Option String) :
    Except Nat TokenClaims :=
  match token with
  | none => Except.error 401
  | some t =>
    match verify t with
    | some u => Except.ok u
    | none => Except.error 401

/-- A protected route: the `auth` middleware runs first and only on success is
the handler (which is the sole place any store access happens) invoked.  The
`Bool` component records whether the handler was reached; on an auth failure
the middleware responds directly, the handler never runs, and the store is
untouched. -/
def runProtected (verify : String → Option TokenClaims) (token : Option String)
    (handler : TokenClaims → Store → Nat × Store) (db : Store) :
    Nat × Store × Bool :=
  match authMW verify token with
  | Except.error s => (s, db, false)
  | Except.ok u =>
    let r := handler u db
    (r.1, r.2, true)

/-- The projection of a `Users` row returned by `GET /api/users/all`
(`SELECT id, prenom, nom, email, role`). -/
structure UserPublic where
  id : Nat
  prenom : String
  nom : String
  email : String
  role : String
deriving Repr, DecidableEq

/-- Column projection for the global user listing. -/
def toPublic (u : User) : UserPublic :=
  ⟨u.id, u.prenom, u.nom, u.email, u.role⟩

/-- Sort key of `ORDER BY role, nom, prenom`: lexicographic on the triple. -/
def userKey (u : UserPublic) : String ×ₗ (String ×ₗ String) :=
  toLex (u.role, toLex (u.nom, u.prenom))

/-- The row order produced by `ORDER BY role, nom, prenom`. -/
def userOrd (a b : UserPublic) : Prop :=
  userKey a ≤ userKey b

instance : DecidableRel userOrd :=
  fun a b => inferInstanceAs (Decidable (userKey a ≤ userKey b))

instance : IsTotal UserPublic userOrd :=
  ⟨fun a b => le_total (userKey a) (userKey b)⟩

instance : IsTrans UserPublic userOrd :=
  ⟨fun _ _ _ h h2 => le_trans h h2⟩

/-- Handler of `GET /api/users/all`: gated by
`authorizeRole(['Professeur', 'Coordinateur'])`, then returns every user
ordered by role, nom, prenom. -/
def usersAll (db : Store) (caller : TokenClaims) : Nat × List UserPublic :=
  if !(caller.role == "Professeur" || caller.role == "Coordinateur") then
    (403, [])
  else
    (200, List.insertionSort userOrd (db.users.map toPublic))

/-- Result of `POST /api/auth/register`: status, resulting store, and the
claims signed into the issued JWT (when one is issued). -/
structure RegisterResult where
  status : Nat
  db : Store
  token : Option TokenClaims
deriving Repr, DecidableEq

/-- Handler of `POST /api/auth/register` (no auth middleware on this route).
Missing fields give 400; an already-registered email gives 400; otherwise the
user row is inserted with the role string taken verbatim from the body and a
token is signed over `{ id, email, role }`.  Password hashing is the external
bcrypt collaborator, abstracted as `hash`. -/
def register (db : Store) (hash : String → String)
    (nom prenom email password role : Option String) : RegisterResult :=
  match nom, prenom, email, password, role with
  | some n, some p, some e, some pw, some r =>
    if n == "" || p == "" || e == "" || pw == "" || r == "" then
      ⟨400, db, none⟩
    else if db.users.any (fun u => u.email == e) then
      ⟨400, db, none⟩
    else
      ⟨201,
        { db with
            users := db.users ++ [⟨db.nextId, n, p, e, hash pw, r⟩],
            nextId := db.nextId + 1 },
        some ⟨db.nextId, e, r⟩⟩
  | _, _, _, _, _ => ⟨400, db, none⟩

/-- Handler of `POST /api/classes/join`: gated by
`authorizeRole(['Etudiant'])`; looks the class up by its code (404 when
absent), answers 409 when an enrollment row already exists, otherwise inserts
the `UserClasses` row. -/
def joinClass (db : Store) (caller : TokenClaims) (code : Option String) :
    Nat × Store :=
  if !(caller.role == "Etudiant") then (403, db)
  else
    match code with
    | none => (400, db)
    | some cd =>
      if cd == "" then (400, db)
      else
        match db.classes.find? (fun c => c.code == cd) with
        | none => (404, db)
        | some cl =>
          if db.userClasses.any (fun uc =>
              uc.user_id == caller.id && uc.class_id == cl.id) then
            (409, db)
          else
            (200,
              { db with
                  userClasses :=
                    db.userClasses ++ [⟨db.nextId, caller.id, cl.id, "Etudiant"⟩],
                  nextId := db.nextId + 1 })

/-- Handler of `POST /api/announcements`: gated by
`authorizeRole(['Professeur'])`; existence and ownership of the class are
tested by the single query
`SELECT id FROM Classes WHERE id = ? AND professeur_id = ?`, whose empty
result yields 403. -/
def postAnnouncement (db : Store) (caller : TokenClaims)
    (class_id : Option Nat) (titre contenu : Option String) : Nat × Store :=
  if !(caller.role == "Professeur") then (403, db)
  else
    match class_id, titre, contenu with
    | some cid, some t, some c =>
      if t == "" || c == "" then (400, db)
      else if (db.classes.filter (fun cl =>
          cl.id == cid && cl.professeur_id == caller.id)).isEmpty then
        (403, db)
      else
        (201,
          { db with
              announcements :=
                db.announcements ++ [⟨db.nextId, cid, caller.id, t, c⟩],
              nextId := db.nextId + 1 })
    | _, _, _ => (400, db)

/-- The submissions of one student for one task, in store order. -/
def pairSubs (db : Store) (taskId studentId : Nat) : List Submission :=
  db.submissions.filter (fun s =>
    s.task_id == taskId && s.student_id == studentId)

/-- Handler of `POST /api/tasks/:taskId/submit`: gated by
`authorizeRole(['Etudiant'])`; 400 without file or content, then task
existence (404), then enrollment in the task class via `UserClasses` (403),
then upsert: an existing (task, student) submission row is updated in place
(same row id, new file, content and timestamp) with status 200, otherwise a
fresh row is inserted with status 201. -/
def submitTask (db : Store) (caller : TokenClaims) (taskId : Nat)
    (file_path content : Option String) : Nat × Store :=
  if !(caller.role == "Etudiant") then (403, db)
  else if !(strPresent file_path || strPresent content) then (400, db)
  else
    match db.tasks.find? (fun t => t.id == taskId) with
    | none => (404, db)
    | some task =>
      if !(db.userClasses.any (fun uc =>
          uc.user_id == caller.id && uc.class_id == task.class_id)) then
        (403, db)
      else
        match pairSubs db taskId caller.id with
        | [] =>
          (201,
            { db with
                submissions := db.submissions ++
                  [⟨db.nextId, taskId, caller.id, file_path, content,
                    db.now, none, none⟩],
                nextId := db.nextId + 1 })
        | s :: _ =>
          (200,
            { db with
                submissions := db.submissions.map (fun x =>
                  if x.id == s.id then
                    { x with
                        file_path := file_path,
                        content := content,
                        submitted_at := db.now }
                  else x) })

/-- Row order of `ORDER BY submitted_at ASC`. -/
def subOrd (a b : Submission) : Prop :=
  a.submitted_at ≤ b.submitted_at

instance : DecidableRel subOrd :=
  fun a b => inferInstanceAs (Decidable (a.submitted_at ≤ b.submitted_at))

/-- Handler of `GET /api/tasks/:taskId/submissions`: gated by
`authorizeRole(['Professeur'])`; existence and ownership of the task are
tested by the single query
`SELECT id FROM Tasks WHERE id = ? AND professeur_id = ?`, whose empty result
yields 403; then the task submissions joined with their student rows are
returned ordered by submission time. -/
def getTaskSubmissions (db : Store) (caller : TokenClaims) (taskId : Nat) :
    Nat × List Submission :=
  if !(caller.role == "Professeur") then (403, [])
  else if (db.tasks.filter (fun t =>
      t.id == taskId && t.professeur_id == caller.id)).isEmpty then
    (403, [])
  else
    (200,
      List.insertionSort subOrd (db.submissions.filter (fun s =>
        s.task_id == taskId && db.users.any (fun u => u.id == s.student_id))))

/-- Membership test against the `ClassMembers` table
(`SELECT * FROM ClassMembers WHERE class_id = ? AND user_id = ?`). -/
def memClass (db : Store) (class_id user_id : Nat) : Bool :=
  db.classMembers.any (fun m =>
    m.class_id == class_id && m.user_id == user_id)

/-- Handler of `POST /api/projects`: gated by
`authorizeRole(['Professeur', 'Coordinateur'])`; the first query accepts the
class owner or any caller whose `Users` row carries the Coordinateur role; a
caller whose token role is Coordinateur must additionally hold a
`ClassMembers` row for the class, else 403. -/
def postProject (db : Store) (caller : TokenClaims) (class_id : Nat)
    (titre description date_debut date_fin : Option String) : Nat × Store :=
  if !(caller.role == "Professeur" || caller.role == "Coordinateur") then
    (403, db)
  else
    let isClassOwner := db.classes.filter (fun c =>
      c.id == class_id &&
        (c.professeur_id == caller.id ||
          db.users.any (fun u =>
            u.id == caller.id && u.role == "Coordinateur")))
    if isClassOwner.isEmpty && !(caller.role == "Coordinateur") then
      (403, db)
    else if caller.role == "Coordinateur" &&
        !(memClass db class_id caller.id) then
      (403, db)
    else
      (201,
        { db with
            projets := db.projets ++
              [⟨db.nextId, class_id, titre, description, date_debut, date_fin⟩],
            nextId := db.nextId + 1 })

/-- The join
`SELECT P.class_id, C.professeur_id FROM Projets P JOIN Classes C ON
P.class_id = C.id WHERE P.id = ?`, as (class id, class owner). -/
def projetClassInfo (db : Store) (projet_id : Nat) : Option (Nat × Nat) :=
  (db.projets.find? (fun p => p.id == projet_id)).bind (fun p =>
    (db.classes.find? (fun c => c.id == p.class_id)).map (fun c =>
      (p.class_id, c.professeur_id)))

/-- Handler of `POST /api/groups`: gated by
`authorizeRole(['Professeur', 'Coordinateur'])`; 404 when the project (or its
class, through the join) is absent; 403 when the caller neither owns the
class nor has the Coordinateur token role; a Coordinateur must additionally
be a `ClassMembers` member of the project class, else 403. -/
def postGroup (db : Store) (caller : TokenClaims) (projet_id : Nat)
    (nom_groupe description : Option String) : Nat × Store :=
  if !(caller.role == "Professeur" || caller.role == "Coordinateur") then
    (403, db)
  else
    match projetClassInfo db projet_id with
    | none => (404, db)
    | some (class_id, professeur_id) =>
      if !(professeur_id == caller.id) && !(caller.role == "Coordinateur") then
        (403, db)
      else if caller.role == "Coordinateur" &&
          !(memClass db class_id caller.id) then
        (403, db)
      else
        (201,
          { db with
              groupes := db.groupes ++
                [⟨db.nextId, projet_id, nom_groupe, description⟩],
              nextId := db.nextId + 1 })

/-- The join
`SELECT G.projet_id, P.class_id, C.professeur_id FROM Groupes G JOIN Projets
P ON G.projet_id = P.id JOIN Classes C ON P.class_id = C.id WHERE G.id = ?`,
as (class id, class owner). -/
def groupClassInfo (db : Store) (group_id : Nat) : Option (Nat × Nat) :=
  (db.groupes.find? (fun g => g.id == group_id)).bind (fun g =>
    (db.projets.find? (fun p => p.id == g.projet_id)).bind (fun p =>
      (db.classes.find? (fun c => c.id == p.class_id)).map (fun c =>
        (p.class_id, c.professeur_id))))

/-- Handler of `POST /api/groups/:groupId/members`: gated by
`authorizeRole(['Professeur', 'Coordinateur'])`; 404 when the group chain is
absent; the class owner or an enrolled Coordinateur may proceed; the target
user must exist with role Etudiant (400) and be a member of the class (400);
a duplicate `MembresGroupe` row yields 409; success answers 200. -/
def addGroupMember (db : Store) (caller : TokenClaims) (groupId : Nat)
    (user_id_to_add : Nat) : Nat × Store :=
  if !(caller.role == "Professeur" || caller.role == "Coordinateur") then
    (403, db)
  else
    match groupClassInfo db groupId with
    | none => (404, db)
    | some (class_id, professeur_id) =>
      if !(professeur_id == caller.id) && !(caller.role == "Coordinateur") then
        (403, db)
      else if caller.role == "Coordinateur" &&
          !(memClass db class_id caller.id) then
        (403, db)
      else
        match db.users.find? (fun u => u.id == user_id_to_add) with
        | none => (400, db)
        | some u =>
          if !(u.role == "Etudiant") then (400, db)
          else if !(memClass db class_id user_id_to_add) then (400, db)
          else if db.membresGroupe.any (fun m =>
              m.group_id == groupId && m.user_id == user_id_to_add) then
            (409, db)
          else
            (200,
              { db with
                  membresGroupe :=
                    db.membresGroupe ++ [⟨groupId, user_id_to_add⟩] })

/-- Handler of `DELETE /api/groups/:groupId/members/:userId`: gated by
`authorizeRole(['Professeur', 'Coordinateur'])`; 404 when the group chain is
absent; the class owner or an enrolled Coordinateur may proceed; the delete
answers 404 when it removes no row and 200 otherwise. -/
def removeGroupMember (db : Store) (caller : TokenClaims)
    (groupId userId : Nat) : Nat × Store :=
  if !(caller.role == "Professeur" || caller.role == "Coordinateur") then
    (403, db)
  else
    match groupClassInfo db groupId with
    | none => (404, db)
    | some (class_id, professeur_id) =>
      if !(professeur_id == caller.id) && !(caller.role == "Coordinateur") then
        (403, db)
      else if caller.role == "Coordinateur" &&
          !(memClass db class_id caller.id) then
        (403, db)
      else
        let remaining := db.membresGroupe.filter (fun m =>
          !(m.group_id == groupId && m.user_id == userId))
        if remaining.length == db.membresGroupe.length then (404, db)
        else (200, { db with membresGroupe := remaining })

/-- Handler of `PUT /api/users/:userId/role`: gated by
`authorizeRole(['Coordinateur'])`; 400 for a role outside the three known
roles; 403 when a Coordinateur targets their own id with a role other than
Coordinateur; then the update runs, answering 404 when it matched no row. -/
def putUserRole (db : Store) (caller : TokenClaims) (userId : Nat)
    (role : Option String) : Nat × Store :=
  if !(caller.role == "Coordinateur") then (403, db)
  else
    match role with
    | none => (400, db)
    | some r =>
      if !(r == "Etudiant" || r == "Professeur" || r == "Coordinateur") then
        (400, db)
      else if userId == caller.id && !(r == "Coordinateur") then (403, db)
      else
        let db2 :=
          { db with
              users := db.users.map (fun u =>
                if u.id == userId then { u with role := r } else u) }
        if db.users.any (fun u => u.id == userId) then (200, db2)
        else (404, db2)

/-- The final `DELETE FROM Users WHERE id = ?` of the user-deletion route:
404 when no row was removed, 200 otherwise. -/
def deleteUserRow (db : Store) (userId : Nat) : Nat × Store :=
  let remaining : List User := db.users.filter (fun x => !(x.id == userId))
  if remaining.length == db.users.length then (404, db)
  else (200, { db with users := remaining })

/-- Handler of `DELETE /api/users/:userId`: gated by
`authorizeRole(['Coordinateur'])`; 403 when a Coordinateur targets their own
id; 403 when the target row carries the Coordinateur role and the store holds
exactly one Coordinateur; then the delete runs, answering 404 when it removed
no row and 200 otherwise. -/
def deleteUser (db : Store) (caller : TokenClaims) (userId : Nat) :
    Nat × Store :=
  if !(caller.role == "Coordinateur") then (403, db)
  else if userId == caller.id then (403, db)
  else
    match db.users.find? (fun u => u.id == userId) with
    | some u =>
      if u.role == "Coordinateur" &&
          db.users.countP (fun x => x.role == "Coordinateur") == 1 then
        (403, db)
      else deleteUserRow db userId
    | none => deleteUserRow db userId

/-- The test `content.trim() === ''` of the message route: the content
trims to the empty string exactly when every character is whitespace. -/
def trimEmpty (s : String) : Bool :=
  s.data.all Char.isWhitespace

/-- Handler of `POST /api/messages` (auth only, no role middleware): empty
content gives 400, an unknown message type gives 400; a private message needs
a receiver (400), distinct from the sender (400) and existing (404); a public
message needs a class (400), the sender must be a `ClassMembers` member of
that class (403) and the sender `Users` row must carry the Professeur or
Coordinateur role (403). -/
def sendMessage (db : Store) (caller : TokenClaims)
    (receiver_id class_id : Option Nat) (content : Option String)
    (message_type : Option String) : Nat × Store :=
  match content with
  | none => (400, db)
  | some c =>
    if trimEmpty c then (400, db)
    else
      let mt := message_type.getD ""
      if !(mt == "public" || mt == "private") then (400, db)
      else if mt == "private" then
        match receiver_id with
        | none => (400, db)
        | some rid =>
          if caller.id == rid then (400, db)
          else if !(db.users.any (fun u => u.id == rid)) then (404, db)
          else
            (201,
              { db with
                  messages := db.messages ++
                    [⟨db.nextId, caller.id, some rid, none, c, "private"⟩],
                  nextId := db.nextId + 1 })
      else
        match class_id with
        | none => (400, db)
        | some cid =>
          if !(db.classes.any (fun cl => cl.id == cid) &&
              memClass db cid caller.id) then
            (403, db)
          else
            match db.users.find? (fun u => u.id == caller.id) with
            | none => (403, db)
            | some su =>
              if !(su.role == "Professeur" || su.role == "Coordinateur") then
                (403, db)
              else
                (201,
                  { db with
                      messages := db.messages ++
                        [⟨db.nextId, caller.id, none, some cid, c, "public"⟩],
                      nextId := db.nextId + 1 })

/-- The join of `GET /api/submissions/:submissionId`
(`Submissions S JOIN Tasks T ON S.task_id = T.id JOIN Users U ON
S.student_id = U.id WHERE S.id = ?`). -/
def findSubmissionView (db : Store) (submissionId : Nat) :
    Option (Submission × Task × User) :=
  (db.submissions.find? (fun s => s.id == submissionId)).bind (fun s =>
    (db.tasks.find? (fun t => t.id == s.task_id)).bind (fun t =>
      (db.users.find? (fun u => u.id == s.student_id)).map (fun u =>
        (s, t, u))))

/-- Handler of `GET /api/submissions/:submissionId` (auth only): 404 when the
join is empty; a caller with role Etudiant must be the submitting student and
a caller with role Professeur must own the task, each else 403; every other
role reaches the 200 branch with the full joined row and no further check. -/
def getSubmission (db : Store) (caller : TokenClaims) (submissionId : Nat) :
    Nat × Option (Submission × Task × User) :=
  match findSubmissionView db submissionId with
  | none => (404, none)
  | some v =>
    if caller.role == "Etudiant" && !(v.1.student_id == caller.id) then
      (403, none)
    else if caller.role == "Professeur" &&
        !(v.2.1.professeur_id == caller.id) then
      (403, none)
    else
      (200, some v)

/-- Stand-in for the external bcrypt hash in concrete evaluations. -/
def exHash : String → String := fun s => String.append "h" s

/-- A concrete store used to evaluate the handlers: one class (id 10) owned
by teacher 1, students 2 and 4 enrolled, coordinator 3 a class member, one
task (20), one submission (30) by student 2, one project (40), one group (50)
with student 4 as member.  Student 6 exists but is enrolled nowhere. -/
def exStore : Store where
  users := [⟨1, "Alpha", "Anna", "anna@x", "h", "Professeur"⟩,
            ⟨2, "Beta", "Bob", "bob@x", "h", "Etudiant"⟩,
            ⟨3, "Gamma", "Carl", "carl@x", "h", "Coordinateur"⟩,
            ⟨4, "Delta", "Dan", "dan@x", "h", "Etudiant"⟩,
            ⟨6, "Zeta", "Fred", "fred@x", "h", "Etudiant"⟩]
  classes := [⟨10, "Maths", "d", "ABC123", 1⟩]
  userClasses := [⟨100, 1, 10, "Professeur"⟩, ⟨101, 2, 10, "Etudiant"⟩,
                  ⟨102, 4, 10, "Etudiant"⟩]
  classMembers := [⟨10, 1⟩, ⟨10, 2⟩, ⟨10, 3⟩, ⟨10, 4⟩]
  announcements := []
  tasks := [⟨20, 10, 1, "T1", none, "2026-01-01"⟩]
  submissions := [⟨30, 20, 2, some "f.pdf", some "hello", 5, none, none⟩]
  messages := []
  projets := [⟨40, 10, some "Proj", none, none, none⟩]
  groupes := [⟨50, 40, some "G1", none⟩]
  membresGroupe := [⟨50, 4⟩]
  nextId := 1000
  now := 7

/-- Token claims of teacher 1. -/
def exProf : TokenClaims := ⟨1, "anna@x", "Professeur"⟩

/-- Token claims of student 2. -/
def exEtu : TokenClaims := ⟨2, "bob@x", "Etudiant"⟩

/-- Token claims of student 4 (enrolled in class 10, no submission yet). -/
def exEtuDan : TokenClaims := ⟨4, "dan@x", "Etudiant"⟩

/-- Token claims of coordinator 3 (a member of class 10). -/
def exCoord : TokenClaims := ⟨3, "carl@x", "Coordinateur"⟩

/-- Token claims of a coordinator (id 5) who is a member of no class. -/
def exCoordOut : TokenClaims := ⟨5, "eve@x", "Coordinateur"⟩

/-- Token claims of student 6, who is enrolled in no class. -/
def exEtuOut : TokenClaims := ⟨6, "fred@x", "Etudiant"⟩

/-- Claim C7: a request presenting no token, or a token failing verification,
is answered 401 by the `auth` middleware; the handler is never reached and
the store is untouched, so no store access of any kind occurs. -/
theorem c7_unauthenticated_no_store_access
    (verify : String → Option TokenClaims) (token : Option String)
    (handler : TokenClaims → Store → Nat × Store) (db : Store)
    (h : token = none ∨ ∃ t, token = some t ∧ verify t = none) :
    runProtected verify token handler db = (401, db, false) := by
  rcases h with h | ⟨t, ht, hv⟩
  · subst h; rfl
  · subst ht
    simp [runProtected, authMW, hv]

theorem c7_witness :
    runProtected (fun _ => none) (some "badtoken")
      (fun _ db => (200, db)) exStore = (401, exStore, false) :=
  c7_unauthenticated_no_store_access (fun _ => none) (some "badtoken")
    (fun _ db => (200, db)) exStore (Or.inr ⟨"badtoken", rfl, rfl⟩)

/-- Claim C9: registration needs no token; with the five fields present and a
fresh email it answers 201, persists a user row whose role is exactly the
role string of the request body (including Coordinateur), and signs the very
same role into the issued token. -/
theorem c9_register_role_passthrough (db : Store) (hash : String → String)
    (nom prenom email password role : String)
    (h1 : nom ≠ "") (h2 : prenom ≠ "") (h3 : email ≠ "") (h4 : password ≠ "")
    (h5 : role ≠ "")
    (hfree : ∀ u ∈ db.users, u.email ≠ email) :
    (register db hash (some nom) (some prenom) (some email) (some password)
        (some role)).status = 201 ∧
    (register db hash (some nom) (some prenom) (some email) (some password)
        (some role)).token = some ⟨db.nextId, email, role⟩ ∧
    (register db hash (some nom) (some prenom) (some email) (some password)
        (some role)).db.users =
      db.users ++ [⟨db.nextId, nom, prenom, email, hash password, role⟩] := by
  have hany : db.users.any (fun u => u.email == email) = false := by
    rw [List.any_eq_false]
    intro u hu
    simpa using hfree u hu
  simp [register, hany, h1, h2, h3, h4, h5]

theorem c9_witness :
    (register exStore exHash (some "Nora") (some "Noa") (some "new@x")
        (some "pw") (some "Coordinateur")).status = 201 ∧
    (register exStore exHash (some "Nora") (some "Noa") (some "new@x")
        (some "pw") (some "Coordinateur")).token =
      some ⟨1000, "new@x", "Coordinateur"⟩ ∧
    (register exStore exHash (some "Nora") (some "Noa") (some "new@x")
        (some "pw") (some "Coordinateur")).db.users =
      exStore.users ++
        [⟨1000, "Nora", "Noa", "new@x", exHash "pw", "Coordinateur"⟩] := by
  have h := c9_register_role_passthrough exStore exHash "Nora" "Noa" "new@x"
    "pw" "Coordinateur" (by decide) (by decide) (by decide) (by decide)
    (by decide) (by decide)
  exact h

/-- Claim C10: on the single-submission read, the ownership checks are tied
to the Etudiant and Professeur roles only; a caller with any other role (for
example Coordinateur) gets 200 with the full joined row, with no ownership or
enrollment check. -/
theorem c10_nonstudent_nonteacher_full_access (db : Store)
    (caller : TokenClaims) (sid : Nat) (v : Submission × Task × User)
    (hv : findSubmissionView db sid = some v)
    (h1 : caller.role ≠ "Etudiant") (h2 : caller.role ≠ "Professeur") :
    getSubmission db caller sid = (200, some v) := by
  simp [getSubmission, hv, h1, h2]

theorem c10_witness :
    getSubmission exStore exCoord 30 =
      (200, some (⟨30, 20, 2, some "f.pdf", some "hello", 5, none, none⟩,
        ⟨20, 10, 1, "T1", none, "2026-01-01"⟩,
        ⟨2, "Beta", "Bob", "bob@x", "h", "Etudiant"⟩)) :=
  c10_nonstudent_nonteacher_full_access exStore exCoord 30 _ (by decide)
    (by decide) (by decide)

/-- Claim C1 counterexample: the allow-list of `GET /api/users/all` is
`['Professeur', 'Coordinateur']`, so an authenticated Teacher is answered 200
with the list, not the 403 the claim states. -/
theorem c1_teacher_gets_list_cex :
    (usersAll exStore exProf).1 = 200 ∧ (200 : Nat) ≠ 403 :=
  ⟨rfl, by decide⟩

/-- Claim C1, amended: a caller whose token role is Coordinateur or
Professeur receives 200 with the full user list ordered by (role, nom,
prenom); every other role receives 403. -/
theorem c1_users_all_role_gate (db : Store) (caller : TokenClaims) :
    ((caller.role = "Coordinateur" ∨ caller.role = "Professeur") →
      (usersAll db caller).1 = 200 ∧
      List.Perm (usersAll db caller).2 (db.users.map toPublic) ∧
      List.Sorted userOrd (usersAll db caller).2) ∧
    (caller.role ≠ "Coordinateur" → caller.role ≠ "Professeur" →
      usersAll db caller = (403, [])) := by
  constructor
  · rintro (h | h) <;>
      simp [usersAll, h, List.perm_insertionSort, List.sorted_insertionSort]
  · intro h1 h2
    simp [usersAll, h1, h2]

theorem c1_users_all_witness :
    (usersAll exStore exCoord).1 = 200 ∧
    usersAll exStore exEtu = (403, []) :=
  ⟨((c1_users_all_role_gate exStore exCoord).1 (Or.inl rfl)).1,
   (c1_users_all_role_gate exStore exEtu).2 (by decide) (by decide)⟩

/-- Claim C2 counterexample: on `POST /api/announcements` (a cited site of
the claim) a role-authorized Professeur naming a nonexistent class (no class
999 exists in the store) is answered 403, not the 404 the fixed evaluation
order promises. -/
theorem c2_nonexistent_resource_403_cex :
    (∀ cl ∈ exStore.classes, cl.id ≠ 999) ∧
    (postAnnouncement exStore exProf (some 999) (some "t") (some "c")).1
      = 403 ∧
    (403 : Nat) ≠ 404 :=
  ⟨by decide, by decide, by decide⟩

/-- Claim C2, amended: the task-submission endpoint does evaluate role gate,
then resource existence (404), then the enrollment predicate (403); but the
announcement-creation and task-submission-listing endpoints merge existence
and ownership into one lookup, so a role-authorized caller naming a
nonexistent resource receives 403 there, not 404. -/
theorem c2_check_order_amended (db : Store) (caller : TokenClaims)
    (taskId cid : Nat) (fp ct : Option String) (t c : String) :
    (caller.role = "Etudiant" → (strPresent fp || strPresent ct) = true →
      db.tasks.find? (fun x => x.id == taskId) = none →
      submitTask db caller taskId fp ct = (404, db)) ∧
    (caller.role = "Etudiant" → (strPresent fp || strPresent ct) = true →
      ∀ task, db.tasks.find? (fun x => x.id == taskId) = some task →
      db.userClasses.any (fun uc =>
        uc.user_id == caller.id && uc.class_id == task.class_id) = false →
      submitTask db caller taskId fp ct = (403, db)) ∧
    (caller.role = "Professeur" → t ≠ "" → c ≠ "" →
      (∀ cl ∈ db.classes, cl.id ≠ cid) →
      postAnnouncement db caller (some cid) (some t) (some c) = (403, db)) ∧
    (caller.role = "Professeur" → (∀ x ∈ db.tasks, x.id ≠ taskId) →
      getTaskSubmissions db caller taskId = (403, [])) := by
  refine ⟨?_, ?_, ?_, ?_⟩
  · intro hrole hc hfind
    simp [submitTask, hrole, hc, hfind]
  · intro hrole hc task hfind henr
    simp [submitTask, hrole, hc, hfind, henr]
  · intro hrole ht hc hnone
    have hfil : (db.classes.filter (fun cl =>
        cl.id == cid && cl.professeur_id == caller.id)).isEmpty = true := by
      rw [List.isEmpty_iff, List.filter_eq_nil_iff]
      intro cl hcl
      simp [hnone cl hcl]
    simp [postAnnouncement, hrole, ht, hc, hfil]
  · intro hrole hnone
    have hfil : (db.tasks.filter (fun x =>
        x.id == taskId && x.professeur_id == caller.id)).isEmpty = true := by
      rw [List.isEmpty_iff, List.filter_eq_nil_iff]
      intro x hx
      simp [hnone x hx]
    simp [getTaskSubmissions, hrole, hfil]

theorem c2_check_order_witness :
    submitTask exStore exEtu 999 (some "f") none = (404, exStore) ∧
    submitTask exStore exEtuOut 20 (some "f") none = (403, exStore) ∧
    postAnnouncement exStore exProf (some 999) (some "t") (some "c")
      = (403, exStore) ∧
    getTaskSubmissions exStore exProf 999 = (403, []) :=
  ⟨(c2_check_order_amended exStore exEtu 999 999 (some "f") none "t" "c").1
      rfl (by decide) (by decide),
   (c2_check_order_amended exStore exEtuOut 20 999 (some "f") none "t"
      "c").2.1 rfl (by decide) ⟨20, 10, 1, "T1", none, "2026-01-01"⟩
      (by decide) (by decide),
   (c2_check_order_amended exStore exProf 20 999 (some "f") none "t"
      "c").2.2.1 rfl (by decide) (by decide) (by decide),
   (c2_check_order_amended exStore exProf 999 999 (some "f") none "t"
      "c").2.2.2 rfl (by decide)⟩

/-- Claim C6: under the Coordinateur role gate, changing one's own role to
Etudiant or Professeur is refused with 403, deleting one's own account is
refused with 403, and deleting a user whose row is the sole remaining
Coordinateur row is refused with 403; each refused request leaves the store,
and so its Users rows, unchanged. -/
theorem c6_coordinator_self_protection (db : Store) (caller : TokenClaims)
    (h : caller.role = "Coordinateur") (uid : Nat) (r : String) :
    ((r = "Etudiant" ∨ r = "Professeur") →
      putUserRole db caller caller.id (some r) = (403, db)) ∧
    (deleteUser db caller caller.id = (403, db)) ∧
    (∀ u, db.users.find? (fun x => x.id == uid) = some u →
      u.role = "Coordinateur" →
      db.users.countP (fun x => x.role == "Coordinateur") = 1 →
      deleteUser db caller uid = (403, db)) := by
  refine ⟨?_, ?_, ?_⟩
  · rintro (hr | hr) <;> simp [putUserRole, h, hr]
  · simp [deleteUser, h]
  · intro u hfind hu hcount
    by_cases hself : uid = caller.id
    · simp [deleteUser, h, hself]
    · simp [deleteUser, h, hself, hfind, hu, hcount]

theorem c6_witness :
    putUserRole exStore exCoord 3 (some "Etudiant") = (403, exStore) ∧
    deleteUser exStore exCoord 3 = (403, exStore) ∧
    deleteUser exStore exCoordOut 3 = (403, exStore) :=
  ⟨(c6_coordinator_self_protection exStore exCoord rfl 3 "Etudiant").1
      (Or.inl rfl),
   (c6_coordinator_self_protection exStore exCoord rfl 3 "Etudiant").2.1,
   (c6_coordinator_self_protection exStore exCoordOut rfl 3 "Etudiant").2.2
      ⟨3, "Gamma", "Carl", "carl@x", "h", "Coordinateur"⟩ (by decide)
      (by decide) (by decide)⟩

/-- Claim C8: a private message whose receiver is the sender is refused with
400 and the store (hence the Messages table) is unchanged; and every message
row present after any send either pre-existed or, when private, names a
receiver distinct from its sender. -/
theorem c8_private_message_sender_ne_receiver (db : Store)
    (caller : TokenClaims) (receiver_id class_id : Option Nat)
    (content message_type : Option String) :
    (sendMessage db caller (some caller.id) class_id content (some "private")
      = (400, db)) ∧
    (∀ m ∈ (sendMessage db caller receiver_id class_id content
        message_type).2.messages,
      m ∈ db.messages ∨
        (m.message_type = "private" →
          ∃ rid, m.receiver_id = some rid ∧ rid ≠ m.sender_id)) := by
  constructor
  · cases content with
    | none => rfl
    | some c =>
      by_cases hc : trimEmpty c = true
      · simp [sendMessage, hc]
      · simp [sendMessage, hc]
  · intro m hm
    cases content with
    | none => exact Or.inl hm
    | some c =>
      simp only [sendMessage] at hm
      split at hm
      · exact Or.inl hm
      · split at hm
        · exact Or.inl hm
        · split at hm
          · split at hm
            · exact Or.inl hm
            · rename_i rid
              split at hm
              · exact Or.inl hm
              · rename_i hself
                split at hm
                · exact Or.inl hm
                · simp only [List.mem_append, List.mem_singleton] at hm
                  rcases hm with hm | hm
                  · exact Or.inl hm
                  · subst hm
                    refine Or.inr (fun _ => ⟨rid, rfl, fun he => ?_⟩)
                    exact hself (by simp [he])
          · split at hm
            · exact Or.inl hm
            · split at hm
              · exact Or.inl hm
              · split at hm
                · exact Or.inl hm
                · split at hm
                  · exact Or.inl hm
                  · simp only [List.mem_append, List.mem_singleton] at hm
                    rcases hm with hm | hm
                    · exact Or.inl hm
                    · subst hm
                      exact Or.inr (fun hco => by simp at hco)

theorem c8_witness :
    (sendMessage exStore exEtu (some 2) none (some "hi") (some "private")
      = (400, exStore)) ∧
    ((⟨1000, 2, some 4, none, "hi", "private"⟩ : Message) ∈
        exStore.messages ∨
      ((⟨1000, 2, some 4, none, "hi", "private"⟩ : Message).message_type
          = "private" →
        ∃ rid, (⟨1000, 2, some 4, none, "hi", "private"⟩ :
            Message).receiver_id = some rid ∧ rid ≠ 2)) :=
  ⟨(c8_private_message_sender_ne_receiver exStore exEtu (some 4) none
      (some "hi") (some "private")).1,
   (c8_private_message_sender_ne_receiver exStore exEtu (some 4) none
      (some "hi") (some "private")).2
      ⟨1000, 2, some 4, none, "hi", "private"⟩ (by decide)⟩

/-- Claim C3: every project-creation, group-creation, group-member-addition
and group-member-removal request by a Coordinateur is allowed only with a
`ClassMembers` row linking the Coordinateur to the relevant class (directly,
or through Project to Class, or through Group to Project to Class); a
Coordinateur without that row is answered 403 with the store unchanged. -/
theorem c3_coordinator_enrollment_required (db : Store)
    (caller : TokenClaims) (h : caller.role = "Coordinateur")
    (class_id projet_id groupId uidAdd uidRem : Nat)
    (ti de dd df ng gd : Option String) :
    (memClass db class_id caller.id = false →
      postProject db caller class_id ti de dd df = (403, db)) ∧
    ((postProject db caller class_id ti de dd df).1 = 201 →
      memClass db class_id caller.id = true) ∧
    (∀ cid pown, projetClassInfo db projet_id = some (cid, pown) →
      memClass db cid caller.id = false →
      postGroup db caller projet_id ng gd = (403, db)) ∧
    ((postGroup db caller projet_id ng gd).1 = 201 →
      ∃ cid pown, projetClassInfo db projet_id = some (cid, pown) ∧
        memClass db cid caller.id = true) ∧
    (∀ cid pown, groupClassInfo db groupId = some (cid, pown) →
      memClass db cid caller.id = false →
      addGroupMember db caller groupId uidAdd = (403, db)) ∧
    ((addGroupMember db caller groupId uidAdd).1 = 200 →
      ∃ cid pown, groupClassInfo db groupId = some (cid, pown) ∧
        memClass db cid caller.id = true) ∧
    (∀ cid pown, groupClassInfo db groupId = some (cid, pown) →
      memClass db cid caller.id = false →
      removeGroupMember db caller groupId uidRem = (403, db)) ∧
    ((removeGroupMember db caller groupId uidRem).1 = 200 →
      ∃ cid pown, groupClassInfo db groupId = some (cid, pown) ∧
        memClass db cid caller.id = true) := by
  have p1 : memClass db class_id caller.id = false →
      postProject db caller class_id ti de dd df = (403, db) := by
    intro hm
    simp [postProject, h, hm]
  have g1 : ∀ cid pown, projetClassInfo db projet_id = some (cid, pown) →
      memClass db cid caller.id = false →
      postGroup db caller projet_id ng gd = (403, db) := by
    intro cid pown hinfo hm
    simp [postGroup, h, hinfo, hm]
  have a1 : ∀ cid pown, groupClassInfo db groupId = some (cid, pown) →
      memClass db cid caller.id = false →
      addGroupMember db caller groupId uidAdd = (403, db) := by
    intro cid pown hinfo hm
    simp [addGroupMember, h, hinfo, hm]
  have r1 : ∀ cid pown, groupClassInfo db groupId = some (cid, pown) →
      memClass db cid caller.id = false →
      removeGroupMember db caller groupId uidRem = (403, db) := by
    intro cid pown hinfo hm
    simp [removeGroupMember, h, hinfo, hm]
  refine ⟨p1, ?_, g1, ?_, a1, ?_, r1, ?_⟩
  · intro hs
    cases hmem : memClass db class_id caller.id with
    | true => rfl
    | false => rw [p1 hmem] at hs; simp at hs
  · intro hs
    cases hinfo : projetClassInfo db projet_id with
    | none => simp [postGroup, h, hinfo] at hs
    | some ci =>
      obtain ⟨cid, pown⟩ := ci
      refine ⟨cid, pown, rfl, ?_⟩
      cases hmem : memClass db cid caller.id with
      | true => rfl
      | false => rw [g1 cid pown hinfo hmem] at hs; simp at hs
  · intro hs
    cases hinfo : groupClassInfo db groupId with
    | none => simp [addGroupMember, h, hinfo] at hs
    | some ci =>
      obtain ⟨cid, pown⟩ := ci
      refine ⟨cid, pown, rfl, ?_⟩
      cases hmem : memClass db cid caller.id with
      | true => rfl
      | false => rw [a1 cid pown hinfo hmem] at hs; simp at hs
  · intro hs
    cases hinfo : groupClassInfo db groupId with
    | none => simp [removeGroupMember, h, hinfo] at hs
    | some ci =>
      obtain ⟨cid, pown⟩ := ci
      refine ⟨cid, pown, rfl, ?_⟩
      cases hmem : memClass db cid caller.id with
      | true => rfl
      | false => rw [r1 cid pown hinfo hmem] at hs; simp at hs

theorem c3_witness :
    postProject exStore exCoordOut 10 none none none none = (403, exStore) ∧
    postGroup exStore exCoordOut 40 none none = (403, exStore) ∧
    addGroupMember exStore exCoordOut 50 2 = (403, exStore) ∧
    removeGroupMember exStore exCoordOut 50 4 = (403, exStore) :=
  ⟨(c3_coordinator_enrollment_required exStore exCoordOut rfl 10 40 50 2 4
      none none none none none none).1 (by decide),
   (c3_coordinator_enrollment_required exStore exCoordOut rfl 10 40 50 2 4
      none none none none none none).2.2.1 10 1 (by decide) (by decide),
   (c3_coordinator_enrollment_required exStore exCoordOut rfl 10 40 50 2 4
      none none none none none none).2.2.2.2.1 10 1 (by decide) (by decide),
   (c3_coordinator_enrollment_required exStore exCoordOut rfl 10 40 50 2 4
      none none none none none none).2.2.2.2.2.2.1 10 1 (by decide)
      (by decide)⟩

/-- Claim C4 counterexample: registering with the already-registered email
answers 400, not the 409 the claim assigns to every uniqueness violation. -/
theorem c4_duplicate_email_400_cex :
    (register exStore exHash (some "X") (some "Y") (some "anna@x")
      (some "pw") (some "Etudiant")).status = 400 ∧ (400 : Nat) ≠ 409 :=
  ⟨by decide, by decide⟩

/-- Claim C4, amended: duplicate class enrollment and duplicate group
membership are answered 409, but registering an already-registered email is
answered 400. -/
theorem c4_conflict_statuses_amended (db : Store) (caller : TokenClaims)
    (hash : String → String) (n p e pw r cd : String) (groupId uid : Nat) :
    (n ≠ "" → p ≠ "" → e ≠ "" → pw ≠ "" → r ≠ "" →
      (∃ u ∈ db.users, u.email = e) →
      register db hash (some n) (some p) (some e) (some pw) (some r)
        = ⟨400, db, none⟩) ∧
    (caller.role = "Etudiant" → cd ≠ "" →
      ∀ cl, db.classes.find? (fun c => c.code == cd) = some cl →
      db.userClasses.any (fun uc =>
        uc.user_id == caller.id && uc.class_id == cl.id) = true →
      joinClass db caller (some cd) = (409, db)) ∧
    (caller.role = "Professeur" →
      ∀ cid, groupClassInfo db groupId = some (cid, caller.id) →
      ∀ u, db.users.find? (fun x => x.id == uid) = some u →
      u.role = "Etudiant" →
      memClass db cid uid = true →
      db.membresGroupe.any (fun m =>
        m.group_id == groupId && m.user_id == uid) = true →
      addGroupMember db caller groupId uid = (409, db)) := by
  refine ⟨?_, ?_, ?_⟩
  · intro h1 h2 h3 h4 h5 hdup
    obtain ⟨u, hu, he⟩ := hdup
    have hany : db.users.any (fun x => x.email == e) = true :=
      List.any_eq_true.mpr ⟨u, hu, by simp [he]⟩
    simp [register, h1, h2, h3, h4, h5, hany]
  · intro hrole hcd cl hfind henr
    simp [joinClass, hrole, hcd, hfind, henr]
  · intro hrole cid hinfo u hfind hu hmem hdup
    simp [addGroupMember, hrole, hinfo, hfind, hu, hmem, hdup]

theorem c4_witness :
    register exStore exHash (some "X") (some "Y") (some "anna@x")
      (some "pw") (some "Etudiant") = ⟨400, exStore, none⟩ ∧
    joinClass exStore exEtu (some "ABC123") = (409, exStore) ∧
    addGroupMember exStore exProf 50 4 = (409, exStore) :=
  ⟨(c4_conflict_statuses_amended exStore exEtu exHash "X" "Y" "anna@x" "pw"
      "Etudiant" "ABC123" 50 4).1 (by decide) (by decide) (by decide)
      (by decide) (by decide)
      ⟨⟨1, "Alpha", "Anna", "anna@x", "h", "Professeur"⟩, by decide,
        by decide⟩,
   (c4_conflict_statuses_amended exStore exEtu exHash "X" "Y" "anna@x" "pw"
      "Etudiant" "ABC123" 50 4).2.1 rfl (by decide)
      ⟨10, "Maths", "d", "ABC123", 1⟩ (by decide) (by decide),
   (c4_conflict_statuses_amended exStore exProf exHash "X" "Y" "anna@x" "pw"
      "Etudiant" "ABC123" 50 4).2.2 rfl 10 (by decide)
      ⟨4, "Delta", "Dan", "dan@x", "h", "Etudiant"⟩ (by decide) (by decide)
      (by decide) (by decide)⟩

/-- Claim C5: the submission upsert is idempotent in row count; for a student
with no submission row for the task, the first submit inserts exactly one row
(201) and a second submit updates that same row in place (200) — same row id,
file, content and timestamp overwritten — with the pair (task, student) still
holding exactly one row and the Submissions table not growing. -/
theorem c5_submission_upsert_idempotent (db : Store) (caller : TokenClaims)
    (taskId : Nat) (fp1 ct1 fp2 ct2 : Option String) (task : Task)
    (hrole : caller.role = "Etudiant")
    (hc1 : (strPresent fp1 || strPresent ct1) = true)
    (hc2 : (strPresent fp2 || strPresent ct2) = true)
    (htask : db.tasks.find? (fun t => t.id == taskId) = some task)
    (henr : db.userClasses.any (fun uc =>
      uc.user_id == caller.id && uc.class_id == task.class_id) = true)
    (hnone : pairSubs db taskId caller.id = [])
    (hfresh : db.submissions.all (fun s => !(s.id == db.nextId)) = true) :
    (submitTask db caller taskId fp1 ct1).1 = 201 ∧
    (submitTask (submitTask db caller taskId fp1 ct1).2 caller taskId
      fp2 ct2).1 = 200 ∧
    pairSubs (submitTask db caller taskId fp1 ct1).2 taskId caller.id =
      [⟨db.nextId, taskId, caller.id, fp1, ct1, db.now, none, none⟩] ∧
    pairSubs (submitTask (submitTask db caller taskId fp1 ct1).2 caller
        taskId fp2 ct2).2 taskId caller.id =
      [⟨db.nextId, taskId, caller.id, fp2, ct2, db.now, none, none⟩] ∧
    (submitTask (submitTask db caller taskId fp1 ct1).2 caller taskId
      fp2 ct2).2.submissions.length =
      (submitTask db caller taskId fp1 ct1).2.submissions.length := by
  have hfr : ∀ x ∈ db.submissions, x.id ≠ db.nextId := by
    intro x hx
    simpa using List.all_eq_true.mp hfresh x hx
  have hn : db.submissions.filter (fun s =>
      s.task_id == taskId && s.student_id == caller.id) = [] := hnone
  have h1 : submitTask db caller taskId fp1 ct1 =
      (201, { db with
        submissions := db.submissions ++
          [⟨db.nextId, taskId, caller.id, fp1, ct1, db.now, none, none⟩],
        nextId := db.nextId + 1 }) := by
    simp [submitTask, hrole, hc1, htask, henr, hnone]
  have hd1 : (submitTask db caller taskId fp1 ct1).2 =
      { db with
        submissions := db.submissions ++
          [⟨db.nextId, taskId, caller.id, fp1, ct1, db.now, none, none⟩],
        nextId := db.nextId + 1 } := by
    rw [h1]
  have hpair1 : pairSubs
      { db with
        submissions := db.submissions ++
          [⟨db.nextId, taskId, caller.id, fp1, ct1, db.now, none, none⟩],
        nextId := db.nextId + 1 } taskId caller.id =
      [⟨db.nextId, taskId, caller.id, fp1, ct1, db.now, none, none⟩] := by
    simp [pairSubs, List.filter_append, hn]
  have h2 : submitTask
      { db with
        submissions := db.submissions ++
          [⟨db.nextId, taskId, caller.id, fp1, ct1, db.now, none, none⟩],
        nextId := db.nextId + 1 } caller taskId fp2 ct2 =
      (200, { db with
        submissions := (db.submissions ++
          [(⟨db.nextId, taskId, caller.id, fp1, ct1, db.now, none,
            none⟩ : Submission)]).map
            (fun x : Submission => if x.id == db.nextId then
              { x with file_path := fp2, content := ct2, submitted_at := db.now }
            else x),
        nextId := db.nextId + 1 }) := by
    simp [submitTask, hrole, hc2, htask, henr, hpair1]
  have hd2 : (submitTask
      { db with
        submissions := db.submissions ++
          [⟨db.nextId, taskId, caller.id, fp1, ct1, db.now, none, none⟩],
        nextId := db.nextId + 1 } caller taskId fp2 ct2).2 =
      { db with
        submissions := (db.submissions ++
          [(⟨db.nextId, taskId, caller.id, fp1, ct1, db.now, none,
            none⟩ : Submission)]).map
            (fun x : Submission => if x.id == db.nextId then
              { x with file_path := fp2, content := ct2, submitted_at := db.now }
            else x),
        nextId := db.nextId + 1 } := by
    rw [h2]
  have hmap : (db.submissions ++
      [(⟨db.nextId, taskId, caller.id, fp1, ct1, db.now, none,
        none⟩ : Submission)]).map
        (fun x : Submission => if x.id == db.nextId then
          { x with file_path := fp2, content := ct2, submitted_at := db.now }
        else x) =
      db.submissions ++
        [⟨db.nextId, taskId, caller.id, fp2, ct2, db.now, none, none⟩] := by
    rw [List.map_append]
    congr 1
    · conv_rhs => rw [show db.submissions = db.submissions.map id from
        (List.map_id _).symm]
      apply List.map_congr_left
      intro x hx
      have hxid : (x.id == db.nextId) = false := by
        simp [hfr x hx]
      simp [hxid]
    · simp
  refine ⟨by rw [h1], ?_, ?_, ?_, ?_⟩
  · rw [hd1, h2]
  · rw [hd1]
    exact hpair1
  · rw [hd1, hd2]
    simp only [pairSubs, hmap, List.filter_append, hn]
    simp
  · rw [hd1, hd2]
    simp

theorem c5_witness :
    (submitTask exStore exEtuDan 20 (some "a") none).1 = 201 ∧
    (submitTask (submitTask exStore exEtuDan 20 (some "a") none).2 exEtuDan
      20 (some "b") none).1 = 200 ∧
    pairSubs (submitTask (submitTask exStore exEtuDan 20 (some "a") none).2
        exEtuDan 20 (some "b") none).2 20 4 =
      [⟨1000, 20, 4, some "b", none, 7, none, none⟩] := by
  have h := c5_submission_upsert_idempotent exStore exEtuDan 20 (some "a")
    none (some "b") none ⟨20, 10, 1, "T1", none, "2026-01-01"⟩ rfl
    (by decide) (by decide) (by decide) (by decide) (by decide) (by decide)
  exact ⟨h.1, h.2.1, h.2.2.2.1⟩

end Backend
